import Mathlib

/-!
Verification of the thorium Nuke plugin collection against its
natural-language specification.

The repository is Python 2 glue code over the host application (Nuke)
scripting API.  The embedding below translates the pure computational
content of the repository functions into Lean definitions.  Host objects
(nodes, knobs, viewers, frame ranges, progress tasks) are represented by
explicit structures, and the side effects a function performs on the host
(creating or deleting nodes, setting knob values, executing frames,
showing dialogs) are reified as explicit event lists, so that every
statement is about the exact sequence of host calls the Python code makes.

Python semantics conventions used throughout:
* Python 2 integer division `/` floors, embedded as `Int.fdiv`;
* `int()` applied to a float truncates toward zero, embedded on `Rat`;
* integer truthiness: `not n` holds exactly for `n = 0`;
* `str.replace` replaces all non-overlapping occurrences left to right;
* an attribute access on a host object that has no such attribute raises
  `AttributeError`, embedded as `Except.error`.
-/

namespace Thorium

/-- Python exceptions that the embedded code can raise or catch. -/
inductive PyExc
  | attributeError (attr : String)
  | valueError (msg : String)
  | nameError (name : String)
  | syntaxError (msg : String)
deriving DecidableEq, Repr

/-- The single-quote character (used by the Python `repr` of strings). -/
def sqChar : Char := Char.ofNat 39

/-- `String.singleton sqChar`, the one-character string made of a single
quote. -/
def sqStr : String := String.singleton sqChar

/-- Python `needle in hay` on strings: `needle` occurs contiguously in
`hay`. -/
def pyIn (needle hay : String) : Bool := decide (needle.data <:+: hay.data)

/-- Python `s.startswith(pre)`. -/
def pyStartsWith (s pre : String) : Bool := pre.data.isPrefixOf s.data

/-- Python `s.replace(old, new)` on character lists: replaces every
non-overlapping occurrence of `old` by `new`, scanning left to right.
Python `replace` with an empty `old` interleaves `new` between all
characters; the repository only ever calls it with non-empty `old`, and
for `old = []` we return the input unchanged. -/
def pyReplaceChars (old new : List Char) : List Char → List Char
  | [] => []
  | c :: rest =>
    if h : old ≠ [] ∧ old.isPrefixOf (c :: rest) then
      new ++ pyReplaceChars old new ((c :: rest).drop old.length)
    else
      c :: pyReplaceChars old new rest
termination_by l => l.length
decreasing_by
  · simp only [List.length_drop, List.length_cons]
    have : 1 ≤ old.length := List.length_pos.mpr h.1
    omega
  · simp

/-- Python `s.replace(old, new)` on strings. -/
def pyReplace (s old new : String) : String :=
  String.mk (pyReplaceChars old.data new.data s.data)

/-- Python `int()` applied to a rational (the result of true division):
truncation toward zero. -/
def pyint (q : Rat) : Int := if 0 ≤ q then q.floor else q.ceil

/-- Python dictionary `d.get(key, default)` for a string-keyed dictionary
embedded as an association list. -/
def pyDictGet (d : List (String × Bool)) (key : String) (default : Bool) : Bool :=
  match d.find? (fun kv => kv.1 = key) with
  | some kv => kv.2
  | none => default

end Thorium

/-!
## `thorium/utils/nodes.py`

Node layout helpers.  A Nuke node, as far as these helpers read it, is its
DAG position (`xpos`/`ypos`), the screen size the host reports
(`screenWidth`/`screenHeight`) and its class name (`Class()`).
-/

namespace Thorium.UtilsNodes

/-- The slice of a host node observed by the layout helpers of
`thorium/utils/nodes.py`. -/
structure DagNode where
  xpos : Int
  ypos : Int
  screenWidth : Int
  screenHeight : Int
  klass : String
deriving DecidableEq, Repr

/-- `node_width` from `thorium/utils/nodes.py`: the reported screen width,
or the stock width (80, 12 for Dot nodes) when the host reports a falsy
width (the Nuke 7 bug returns 0). -/
def node_width (node : DagNode) : Int :=
  let width := node.screenWidth
  if width = 0 then (if node.klass ≠ "Dot" then 80 else 12) else width

/-- `node_height` from `thorium/utils/nodes.py`: the reported screen
height, or the stock height (18, 12 for Dot nodes) when the host reports a
falsy height. -/
def node_height (node : DagNode) : Int :=
  let height := node.screenHeight
  if height = 0 then (if node.klass ≠ "Dot" then 18 else 12) else height

/-- `center_x` from `thorium/utils/nodes.py`.  Python 2 `/` on integers is
floor division. -/
def center_x (target source : DagNode) : Int :=
  source.xpos - Int.fdiv (node_width target - node_width source) 2

/-- `center_y` from `thorium/utils/nodes.py`. -/
def center_y (target source : DagNode) : Int :=
  source.ypos - Int.fdiv (node_height target - node_height source) 2

/-- `space_x` from `thorium/utils/nodes.py` (default padding 80). -/
def space_x (source : DagNode) (padding : Int) : Int :=
  node_width source + source.xpos + padding

/-- `space_y` from `thorium/utils/nodes.py` (default padding 6). -/
def space_y (source : DagNode) (padding : Int) : Int :=
  node_height source + source.ypos + padding

end Thorium.UtilsNodes


/-!
## `thorium/__init__.py`

`run_gui` imports GUI-only submodules into the `__builtin__` namespace and
calls their `run()` registration functions.  The import and the `run` call
of each submodule are reified as events; the `modules` configuration
dictionary is an association list and `modules.get(name, default)` is
`pyDictGet`.
-/

namespace Thorium.Init

/-- A host-visible action of `run_gui`: importing a submodule into the
global namespace, or calling its `run` registration function (with the
menu-name keyword argument where the source passes one). -/
inductive GuiEvent
  | imported (module : String)
  | ran (module : String) (menuArg : Option String)
deriving DecidableEq, Repr

/-- `run_gui` from `thorium/__init__.py`: for each of the three GUI
submodules, when `modules.get(name, default)` is true it imports the
module and calls its `run` function (passing `menu=menu_name` for
`cardToTrack`).  `if not modules: modules = {}` is a no-op on the
association-list embedding, where an absent dictionary is the empty
list. -/
def run_gui (modules : List (String × Bool)) (default : Bool)
    (menu_name : String) : List GuiEvent :=
  (if pyDictGet modules "animatedSnap3D" default then
    [GuiEvent.imported "animatedSnap3D", GuiEvent.ran "animatedSnap3D" none]
  else []) ++
  (if pyDictGet modules "cardToTrack" default then
    [GuiEvent.imported "cardToTrack", GuiEvent.ran "cardToTrack" (some menu_name)]
  else []) ++
  (if pyDictGet modules "iconPanel" default then
    [GuiEvent.imported "iconPanel", GuiEvent.ran "iconPanel" none]
  else [])

end Thorium.Init


/-!
## `_get_menu_item_index` (two identical copies)

Both `thorium/cardToTrack/__init__.py` and `thorium/viewerSync/__init__.py`
define a private helper that answers: at which index would `item` sit if
the item names of `menu` plus `item` itself were sorted alphabetically.
The host menu is observed only through the list of its item names, and
Python `list.sort()` on strings is sorting by the (total) lexicographic
string order; `list.index` returns the first index of an element.
-/

namespace Thorium.CardToTrack

/-- `_get_menu_item_index` from `thorium/cardToTrack/__init__.py`: append
`item` to the menu item names, sort, and return the first index of
`item`. -/
def get_menu_item_index (menu_items : List String) (item : String) : Nat :=
  ((menu_items ++ [item]).insertionSort (· ≤ ·)).indexOf item

end Thorium.CardToTrack

namespace Thorium.ViewerSyncMenu

/-- `_get_menu_item_index` from `thorium/viewerSync/__init__.py`, a
character-for-character copy of the cardToTrack helper. -/
def get_menu_item_index (menu_items : List String) (item : String) : Nat :=
  ((menu_items ++ [item]).insertionSort (· ≤ ·)).indexOf item

end Thorium.ViewerSyncMenu


/-!
## `thorium/animatedSnap3D/animatedSnap3D.py`

`animated_snap` verifies the node and vertex selection, asks for a frame
range, creates a temporary CurveTool node, marks the transform knobs
animated, and then walks the frame range: per frame it sets the progress
of the host progress task, executes the CurveTool to force tree
evaluation, re-reads the vertex selection and snaps the node.

Host objects.  `nuke.FrameRange` is host API, not repository code; it is
modelled from the documented Nuke interface: a range with `first()`,
`last()`, `increment()` and `frames()` (the number of frames in the
range).  The documented interface has no attribute named `framges`, so an
access to it is an `AttributeError`, which `FrameRange.callIntMethod`
models by returning `none`.  `nukescripts.snap3d` is likewise host code:
`verifyNodeToSnap` is abstracted by its result (`SnapHost.verifyNodeError`)
and `verifyVertexSelection(sel, n)` by its documented contract of raising
`ValueError` exactly when fewer than `n` vertices are selected.  The
`_get_frange` dialog is host interaction and is abstracted by its result
(`SnapHost.dialogFrange`).  Vertex selections are observed only through
their size, so they are embedded as counts.
-/

namespace Thorium.AnimatedSnap3D

/-- A host `nuke.FrameRange`: first frame, last frame, increment. -/
structure FrameRange where
  first : Int
  last : Int
  increment : Int
deriving DecidableEq, Repr

/-- The frames a `nuke.FrameRange` iterates over (`for frame in frange`):
first, first + increment, ... up to last.  Empty when the increment is not
positive or the range is reversed. -/
def FrameRange.frameList (r : FrameRange) : List Int :=
  if 0 < r.increment ∧ r.first ≤ r.last then
    (List.range (((r.last - r.first) / r.increment).toNat + 1)).map
      (fun i => r.first + r.increment * i)
  else []

/-- Integer-returning attribute lookup on a host `nuke.FrameRange`,
modelled from the documented Nuke API: `first`, `last`, `increment` and
`frames` (the number of frames in the range).  Any other attribute name is
absent (`none`), which in Python is an `AttributeError`; in particular the
host class has a `frames` attribute but no `framges` attribute. -/
def FrameRange.callIntMethod (r : FrameRange) (name : String) : Option Int :=
  if name = "first" then some r.first
  else if name = "last" then some r.last
  else if name = "increment" then some r.increment
  else if name = "frames" then some (r.frameList.length : Int)
  else none

/-- `_frange_percent` from `animatedSnap3D.py`:
`int((frame - frange.first()) / float(frange.framges()) * 100)`.
The attribute access `frange.framges()` is looked up on the host
FrameRange; when it is absent the call raises `AttributeError`. -/
def frange_percent (frame : Int) (frange : FrameRange) : Except PyExc Int :=
  match frange.callIntMethod "framges" with
  | none => Except.error (PyExc.attributeError "framges")
  | some n =>
      Except.ok (pyint (((frame - frange.first : Int) : Rat) / (n : Rat) * 100))

/-- The host state `animated_snap` reads: the result of
`snap3d.verifyNodeToSnap` (host code, abstracted by the error it raises,
if any), the size of the initial and of the per-frame vertex selection
(`snap3d.getSelection`), the answers of `task.isCancelled()` by call
index, which node knobs report `isAnimated()`, and the frame range the
`_get_frange` dialog would return. -/
structure SnapHost where
  verifyNodeError : Option String
  initialSelectionCount : Nat
  selectionCountAt : Int → Nat
  isCancelled : Nat → Bool
  nodeKnobAnimated : String → Bool
  dialogFrange : Option FrameRange

/-- A host-visible action of `animated_snap`. -/
inductive SnapEvent
  | message (msg : String)
  | curveToolCreated
  | clearAnimated (knob : String)
  | setAnimated (knob : String)
  | setProgress (p : Int)
  | execute (frame : Int)
  | snap (func : String) (frame : Int)
  | curveToolDeleted
deriving DecidableEq, Repr

/-- The `ValueError` message of the host function
`nukescripts.snap3d.verifyVertexSelection`, raised when fewer than
`minVerts` vertices are selected (the exact host wording is immaterial to
the claims). -/
def vertexSelectionErrMsg (minVerts : Nat) : String :=
  "Selection must be at least " ++ toString minVerts ++ " points"

/-- The message `animated_snap` formats when the per-frame vertex
selection drops below the minimum (lines 231-240 of the source). -/
def vertexDropMsg (verts : Nat) (frame : Int) : String :=
  "Number of vertices selected has dropped below " ++ toString verts
    ++ ".This is most likely due to changes in geometry topology.\n"
    ++ "Please select new vertices and start again from frame "
    ++ toString frame ++ " on."

/-- The `transforms` default: `if not transforms: transforms =
[qtranslateq]` (an absent argument and an empty list are both falsy). -/
def snap_transforms (transforms : List String) : List String :=
  if transforms = [] then ["translate"] else transforms

/-- The knob list `animated_snap` verifies (source lines 168-172): the
transforms plus `xform_order`, plus `rot_order` when `rotate` is among
them.  Takes the already-defaulted transforms list. -/
def snap_knobs (transforms : List String) : List String :=
  let knobs := transforms ++ ["xform_order"]
  if "rotate" ∈ knobs then knobs ++ ["rot_order"] else knobs

/-- The minimum vertex count (source lines 158, 174-175): 3 when `scaling`
is among the knobs, else 1. -/
def snap_min_verts (transforms : List String) : Nat :=
  if "scaling" ∈ snap_knobs transforms then 3 else 1

/-- The snap function chosen (source lines 166, 171-176): the scaling
variant wins over the rotate variant, which wins over plain translate. -/
def snap_func_name (transforms : List String) : String :=
  if "scaling" ∈ snap_knobs transforms then
    "translateRotateScaleToPointsVerified"
  else if "rotate" ∈ snap_knobs transforms then
    "translateRotateToPointsVerified"
  else "translateToPointsVerified"

/-- The frame loop of `animated_snap` (source lines 213-244), over the
remaining frames, with `n` counting the `task.isCancelled()` calls made so
far.  Per frame: when the task is cancelled, break; otherwise compute
`_frange_percent` (whose `AttributeError` propagates), set the progress,
execute the CurveTool over `(frame, frame)`, re-read the selection, and
either show a message and break (selection below minimum) or snap and
continue. -/
def snap_loop (frange : FrameRange) (snap_func : String) (min_verts : Nat)
    (host : SnapHost) : List Int → Nat → List SnapEvent × Except PyExc Unit
  | [], _ => ([], Except.ok ())
  | frame :: rest, n =>
    if host.isCancelled n then ([], Except.ok ())
    else
      match frange_percent frame frange with
      | Except.error e => ([], Except.error e)
      | Except.ok p =>
        let ev := [SnapEvent.setProgress p, SnapEvent.execute frame]
        if host.selectionCountAt frame < min_verts then
          (ev ++ [SnapEvent.message (vertexDropMsg min_verts frame)],
           Except.ok ())
        else
          let res := snap_loop frange snap_func min_verts host rest (n + 1)
          (ev ++ SnapEvent.snap snap_func frame :: res.1, res.2)

/-- `animated_snap` from `animatedSnap3D.py`.  Arguments: the `transforms`
list (empty for an absent argument), the vertex-selection size passed by
the caller (`none` defaults to the host selection), and the `frange`
argument (`none` asks the `_get_frange` dialog).  Returns the list of
host-visible actions together with normal return (`Except.ok`) or a
propagated exception.  The trailing `if temp: nuke.delete(temp)` runs only
on normal control flow, so the delete event is appended only when the loop
did not raise. -/
def animated_snap (transforms : List String) (vertices : Option Nat)
    (frangeArg : Option FrameRange) (host : SnapHost) :
    List SnapEvent × Except PyExc Unit :=
  let transforms := snap_transforms transforms
  let min_verts := snap_min_verts transforms
  let vcount := vertices.getD host.initialSelectionCount
  match host.verifyNodeError with
  | some err => ([SnapEvent.message err], Except.ok ())
  | none =>
    if vcount < min_verts then
      ([SnapEvent.message (vertexSelectionErrMsg min_verts)], Except.ok ())
    else
      let frange := match frangeArg with
        | some f => some f
        | none => host.dialogFrange
      match frange with
      | none => ([], Except.ok ())
      | some frange =>
        let ev1 := [SnapEvent.curveToolCreated]
        let ev2 := transforms.foldr
          (fun k acc =>
            (if host.nodeKnobAnimated k then [SnapEvent.clearAnimated k]
             else []) ++ SnapEvent.setAnimated k :: acc) []
        let res := snap_loop frange (snap_func_name transforms) min_verts
          host frange.frameList 0
        (ev1 ++ ev2 ++ res.1
          ++ (match res.2 with
              | Except.ok _ => [SnapEvent.curveToolDeleted]
              | Except.error _ => []),
         res.2)

end Thorium.AnimatedSnap3D


/-!
## `thorium/viewerSync/viewerSync.py`

Viewers are host nodes identified by their unique `fullName`.  The
`knobChanged` knob of a viewer holds a callback string; viewerSync writes
`viewerSync.sync_viewers([...])` there, with the Python `repr` of the list
of the other viewer names as argument, and `_extract_viewer_list` parses
it back with `ast.literal_eval`.

`ast.literal_eval` is Python standard library code; it is modelled on the
sublanguage that can reach it here: a literal list of single-quoted
strings evaluates to that list of strings, and any other input is an
error, which Python 2 surfaces as `ValueError: malformed string` (a
non-literal expression).  The parser below is a character state machine
accepting exactly the canonical `repr` form that `_set_callback`
writes.
-/

namespace Thorium.ViewerSync

open Thorium

/-- A host Viewer node as observed through callbacks: its full name. -/
structure Viewer where
  fullName : String
deriving DecidableEq, Repr

/-- `SYNC_DEFAULTS` from `viewerSync.py`: the synced viewer knobs and
their default sync settings, in source order. -/
def SYNC_DEFAULTS : List (String × Bool) :=
  [("channels", false), ("cliptest", true), ("downrez", true),
   ("format_center", true), ("gain", false), ("gamma", false),
   ("masking_mode", true), ("masking_ratio", true), ("overscan", true),
   ("ignore_pixel_aspect", true), ("input_number", true),
   ("input_process", true), ("input_process_node", true),
   ("inputs", false), ("rgb_only", true), ("roi", true),
   ("safe_zone", true), ("show_overscan", true),
   ("viewerInputOrder", true), ("viewerProcess", true),
   ("zoom_lock", true)]

/-- `SYNC_DEFAULTS.keys()`. -/
def sync_default_keys : List String := SYNC_DEFAULTS.map Prod.fst

/-- `SYNC_DEFAULTS[knob]` (every key is present). -/
def sync_default_of (knob : String) : Bool :=
  pyDictGet SYNC_DEFAULTS knob false

/-- `VIEWER_SYNC_KNOBS` from `viewerSync.py`: the `vs_`-prefixed sync
switch knob names. -/
def VIEWER_SYNC_KNOBS : List String :=
  sync_default_keys.map (fun knob => "vs_" ++ knob)

/-- The bracket, comma and space characters, named (character literals
are avoided throughout in favour of explicit code points). -/
def lbrackChar : Char := Char.ofNat 91

/-- The closing square bracket. -/
def rbrackChar : Char := Char.ofNat 93

/-- The comma. -/
def commaChar : Char := Char.ofNat 44

/-- The space character. -/
def spaceChar : Char := Char.ofNat 32

/-- The fixed text of the callback `_set_callback` writes, up to the
argument list. -/
def vsCallbackPrefix : String := "viewerSync.sync_viewers("

/-- Characters legal in a host node full name (alphanumerics, underscore,
and the dot separating group levels). -/
def wfNameChar (c : Char) : Bool := c.isAlphanum || c = '_' || c = '.'

/-- A well-formed host node full name: every character is legal. -/
def wfName (s : String) : Bool := s.data.all wfNameChar

/-- The characters of the Python `repr` of a single-quoted string. -/
def reprQuoted (n : String) : List Char := sqChar :: n.data ++ [sqChar]

/-- The characters between the brackets of the Python `repr` of a list of
strings: the quoted items separated by a comma and a space. -/
def reprBodyChars : List String → List Char
  | [] => []
  | [n] => reprQuoted n
  | n :: rest => reprQuoted n ++ (commaChar :: spaceChar :: reprBodyChars rest)

/-- The Python `repr` of a list of strings (canonical form: single quotes,
comma-space separators), as `str.format` interpolates it into the
callback. -/
def pyReprStrList (names : List String) : String :=
  String.mk (lbrackChar :: reprBodyChars names ++ [rbrackChar])

/-- `_set_callback` from `viewerSync.py`: drop the first occurrence of
`node` from a copy of `viewers` (`viewers.pop(viewers.index(node))`, run
only when present), take the full names, and write
`viewerSync.sync_viewers(<repr of the names>)` to the knobChanged knob of
`node`.  The returned string is the written callback value. -/
def set_callback (node : Viewer) (viewers : List Viewer) : String :=
  let viewers := viewers.erase node
  let viewer_names := viewers.map Viewer.fullName
  vsCallbackPrefix ++ pyReprStrList viewer_names ++ ")"

/-- States of the `literal_eval` character machine for a list of
single-quoted strings (the opening bracket is consumed before the machine
starts). -/
inductive PState
  | start
  | inStr
  | afterStr
  | afterComma
  | afterSpace
  | done
  | fail
deriving DecidableEq, Repr

/-- One step of the `literal_eval` machine.  The accumulator holds the
characters of the string item being read (reversed) and the items read so
far (reversed). -/
def pstep : PState × List Char × List String → Char →
    PState × List Char × List String
  | (PState.start, acc, items), c =>
      if c = sqChar then (PState.inStr, acc, items)
      else if c = rbrackChar then (PState.done, acc, items)
      else (PState.fail, acc, items)
  | (PState.inStr, acc, items), c =>
      if c = sqChar then (PState.afterStr, [], String.mk acc.reverse :: items)
      else (PState.inStr, c :: acc, items)
  | (PState.afterStr, acc, items), c =>
      if c = rbrackChar then (PState.done, acc, items)
      else if c = commaChar then (PState.afterComma, acc, items)
      else (PState.fail, acc, items)
  | (PState.afterComma, acc, items), c =>
      if c = spaceChar then (PState.afterSpace, acc, items)
      else (PState.fail, acc, items)
  | (PState.afterSpace, acc, items), c =>
      if c = sqChar then (PState.inStr, acc, items)
      else (PState.fail, acc, items)
  | (PState.done, acc, items), _ => (PState.fail, acc, items)
  | (PState.fail, acc, items), _ => (PState.fail, acc, items)

/-- What evaluating a string outside the canonical list-of-strings
sublanguage does, once the resulting value is iterated as viewer names:
it can still yield a sequence of strings (`ast.literal_eval` accepts more
spellings than the canonical `repr`, e.g. double quotes or tuples); it can
raise `ValueError: malformed string` (syntactically valid but not a
literal), which the except-ValueError handlers of this module catch; or it
can raise an exception no handler here catches (`SyntaxError` on invalid
syntax, or a later `TypeError` when an item is not a string).  The split
among these outcomes is decided by the full Python expression grammar,
which is not modelled: the development takes the classification as a
parameter and quantifies over it, so every theorem holds for the true
grammar in particular. -/
inductive LiteralEvalOutcome
  | ok (items : List String)
  | malformed
  | uncaught (msg : String)
deriving DecidableEq, Repr

/-- The result of `ast.literal_eval` on a non-canonical input, given the
classified outcome. -/
def literal_eval_fallback (classify : String → LiteralEvalOutcome)
    (s : String) : Except PyExc (List String) :=
  match classify s with
  | LiteralEvalOutcome.ok items => Except.ok items
  | LiteralEvalOutcome.malformed =>
      Except.error (PyExc.valueError "malformed string")
  | LiteralEvalOutcome.uncaught msg => Except.error (PyExc.syntaxError msg)

/-- `ast.literal_eval` as used here: a canonical literal list of
single-quoted strings evaluates to the list of strings; any other input is
classified by `classify` (see `LiteralEvalOutcome`). -/
def literal_eval_str_list (classify : String → LiteralEvalOutcome)
    (s : String) : Except PyExc (List String) :=
  match s.data with
  | [] => literal_eval_fallback classify s
  | c :: rest =>
      if c = lbrackChar then
        match rest.foldl pstep (PState.start, [], []) with
        | (PState.done, _, items) => Except.ok items.reverse
        | _ => literal_eval_fallback classify s
      else literal_eval_fallback classify s

/-- The message of the `ValueError` that `_extract_viewer_list` itself
raises on a foreign callback (source line 274). -/
def vsForeignErrMsg : String := "Not a viewerSync" ++ sqStr ++ "d viewer."

/-- `_extract_viewer_list` from `viewerSync.py`, as a function of the
knobChanged value of the viewer and of the host name resolver
`nuke.toNode`: an empty callback gives no viewers; a non-empty callback
without the text `viewerSync` raises `ValueError`; otherwise the text
`viewerSync.sync_viewers(` is removed (Python `str.replace`, all
occurrences), the final `)` is dropped (`[:-1]`), the remainder goes
through `literal_eval`, and the resulting names resolve through `toNode`,
keeping only the names that resolve.  `classify` fixes the behaviour of
`literal_eval` outside the canonical sublanguage. -/
def extract_viewer_list (classify : String → LiteralEvalOutcome)
    (toNode : String → Option Viewer)
    (callback : String) : Except PyExc (List Viewer) :=
  if callback.data = [] then Except.ok []
  else if ¬ (pyIn "viewerSync" callback = true) then
    Except.error (PyExc.valueError vsForeignErrMsg)
  else
    match literal_eval_str_list classify (String.mk
        ((pyReplaceChars vsCallbackPrefix.data [] callback.data).dropLast)) with
    | Except.error e => Except.error e
    | Except.ok linked_viewers =>
        Except.ok (linked_viewers.filterMap toNode)

end Thorium.ViewerSync

/-!
## `viewerSync.py`: knob removal, the sync router, and callback removal

For `_remove_knobs` and `remove_callbacks` a viewer is observed through
its `knobChanged` value and the set of its other knob names.  For
`sync_viewers` the calling viewer is observed through its knob values and
its inputs, and the target viewers through which knobs they have (a knob
access on a missing knob raises the host `NameError`, which `_sync_knob`
catches).
-/

namespace Thorium.ViewerSync

open Thorium

/-- The mutable per-viewer state that `remove_callbacks` touches: the
`knobChanged` callback value and the names of the other knobs on the
node. -/
structure ViewerState where
  knobChanged : String
  knobNames : List String
deriving DecidableEq, Repr

/-- The knob names surviving `_remove_knobs`: every name starting with
`vs_` is removed (the loop over a snapshot of `viewer.knobs()`), then
`vs_options` is erased if still present (it never is, the filter already
removed it). -/
def remove_vs_knobs (names : List String) : List String :=
  if "vs_options" ∈ names.filter (fun k => ¬ (pyStartsWith k "vs_" = true)) then
    (names.filter (fun k => ¬ (pyStartsWith k "vs_" = true))).erase "vs_options"
  else names.filter (fun k => ¬ (pyStartsWith k "vs_" = true))

/-- `_remove_knobs` from `viewerSync.py`: apply `remove_vs_knobs` to the
knob names of the viewer; nothing else on the node is touched. -/
def remove_knobs (v : ViewerState) : ViewerState :=
  { v with knobNames := remove_vs_knobs v.knobNames }

/-- The per-viewer body of the `remove_callbacks` loop (source lines
419-422): blank the `knobChanged` knob when its value mentions
`viewerSync`, then `_remove_knobs`. -/
def remove_callbacks_step (v : ViewerState) : ViewerState :=
  remove_knobs
    (if pyIn "viewerSync" v.knobChanged then { v with knobChanged := "" } else v)

/-- The node-graph slice `remove_callbacks` works on: the full names of
all Viewer nodes at the current level (`nuke.allNodes`), the state of each
viewer by name, and the current selection (`nuke.selectedNodes`). -/
structure VsGraph where
  viewers : List String
  state : String → ViewerState
  selected : List String

/-- `nuke.toNode` restricted to Viewer nodes of the graph. -/
def VsGraph.toNode (g : VsGraph) (name : String) : Option Viewer :=
  if name ∈ g.viewers then some ⟨name⟩ else none

/-- The `extra_viewers` accumulation of `remove_callbacks` (source lines
408-417): per selected viewer, `_extract_viewer_list` is tried; a
`ValueError` (any message) is caught by the `except ValueError: pass` and
the viewer contributes nothing; any other exception propagates and aborts
the loop. -/
def remove_callbacks_extra (g : VsGraph)
    (classify : String → LiteralEvalOutcome) :
    List String → Except PyExc (List String)
  | [] => Except.ok []
  | v :: rest =>
    match extract_viewer_list classify g.toNode (g.state v).knobChanged with
    | Except.ok linked =>
        match remove_callbacks_extra g classify rest with
        | Except.ok acc => Except.ok (linked.map Viewer.fullName ++ acc)
        | Except.error e => Except.error e
    | Except.error (PyExc.valueError _) => remove_callbacks_extra g classify rest
    | Except.error e => Except.error e

/-- The viewer list `remove_callbacks` iterates over (source lines
403-417): all viewers when nothing is selected; otherwise the selected
viewers extended with every viewer a selected callback links to.  An
uncaught exception from the extraction phase propagates (the mutation
loop is then never reached). -/
def remove_callbacks_viewers (g : VsGraph)
    (classify : String → LiteralEvalOutcome) : Except PyExc (List String) :=
  if g.selected = [] then Except.ok g.viewers
  else
    match remove_callbacks_extra g classify g.selected with
    | Except.ok extra => Except.ok (g.selected ++ extra)
    | Except.error e => Except.error e

/-- Apply the `remove_callbacks` per-viewer mutation to each named viewer
in order, as a pointwise update of the graph state. -/
def apply_step_to (names : List String) (state : String → ViewerState) :
    String → ViewerState :=
  names.foldl
    (fun st name n =>
      if n = name then remove_callbacks_step (st n) else st n)
    state

/-- `remove_callbacks` from `viewerSync.py`: the final graph state
together with the outcome.  The extraction phase (building the viewer
list) runs entirely before the mutation loop, so when it raises, the
exception propagates with every viewer state untouched; otherwise the
mutation loop runs over the built list. -/
def remove_callbacks (g : VsGraph)
    (classify : String → LiteralEvalOutcome) :
    (String → ViewerState) × Except PyExc Unit :=
  match remove_callbacks_viewers g classify with
  | Except.error e => (g.state, Except.error e)
  | Except.ok names => (apply_step_to names g.state, Except.ok ())

/-- A Python value held by a knob, as far as `sync_viewers` reads them. -/
inductive PyVal
  | vbool (b : Bool)
  | vint (n : Int)
  | vstr (s : String)
deriving DecidableEq, Repr

/-- Python truthiness of a knob value. -/
def PyVal.truthy : PyVal → Bool
  | PyVal.vbool b => b
  | PyVal.vint n => n ≠ 0
  | PyVal.vstr s => s.data ≠ []

/-- The calling viewer as `sync_viewers` reads it: its knob values (a
missing name raises the host `NameError`), its input count and its input
connections (`caller.inputs()` / `caller.input(i)`, an unconnected input
being `None`). -/
structure SyncNode where
  knobs : List (String × PyVal)
  numInputs : Nat
  input : Nat → Option String

/-- Knob lookup on the calling viewer. -/
def SyncNode.getKnob (node : SyncNode) (name : String) : Option PyVal :=
  match node.knobs.find? (fun kv => kv.1 = name) with
  | some kv => some kv.2
  | none => none

/-- A target viewer as `_sync_knob` writes it: its name and which knobs it
has. -/
structure TargetViewer where
  name : String
  knobNames : List String
deriving DecidableEq, Repr

/-- A host-visible write performed by `sync_viewers`. -/
inductive SyncEvent
  | setKnob (viewer knob : String) (value : PyVal)
  | setInput (viewer : String) (i : Nat) (src : Option String)
deriving DecidableEq, Repr

/-- `_sync_knob` from `viewerSync.py`: for each target, copy the knob
value from the source; a `NameError` (knob missing on the target, or on
the source) is caught and that target skipped. -/
def sync_knob (source : SyncNode) (targets : List TargetViewer)
    (knob : String) : List SyncEvent :=
  targets.foldr
    (fun target acc =>
      (if knob ∈ target.knobNames then
        match source.getKnob knob with
        | some v => [SyncEvent.setKnob target.name knob v]
        | none => []
      else []) ++ acc) []

/-- The body of `sync_viewers` after the early-return checks (source lines
562-588): resolve the viewer names, handle a `vs_` switch knob (sync the
switch itself, and when the switch is on retarget the sync to the
underlying knob by stripping `vs_`), then route: input changes copy the
input connections when `vs_inputs` is on; a `knobChanged` event syncs
every knob whose default says to sync; any other knob syncs itself. -/
def sync_viewers_rest (caller : SyncNode) (caller_knob : String)
    (viewers : List String) (toNode : String → Option TargetViewer) :
    Except PyExc (List SyncEvent) :=
  let viewer_nodes := viewers.filterMap toNode
  let vsEvents :=
    if caller_knob ∈ VIEWER_SYNC_KNOBS then
      sync_knob caller viewer_nodes caller_knob
    else []
  match
    (if caller_knob ∈ VIEWER_SYNC_KNOBS then
      match caller.getKnob caller_knob with
      | none => Except.error (PyExc.nameError caller_knob)
      | some v =>
          Except.ok (if v.truthy then pyReplace caller_knob "vs_" "" else caller_knob)
    else Except.ok caller_knob : Except PyExc String) with
  | Except.error e => Except.error e
  | Except.ok ck =>
    if ck = "inputChange" ∨ ck = "inputs" then
      match caller.getKnob "vs_inputs" with
      | none => Except.error (PyExc.nameError "vs_inputs")
      | some v =>
          if v.truthy then
            Except.ok (vsEvents ++ viewer_nodes.foldr
              (fun viewer acc =>
                (List.range caller.numInputs).map
                  (fun i => SyncEvent.setInput viewer.name i (caller.input i))
                ++ acc) [])
          else Except.ok vsEvents
    else
      let knob_list :=
        if ck = "knobChanged" then
          sync_default_keys.filter (fun knob => sync_default_of knob)
        else [ck]
      Except.ok (vsEvents ++ knob_list.foldr
        (fun knob acc => sync_knob caller viewer_nodes knob ++ acc) [])

/-- `sync_viewers` from `viewerSync.py`.  The caller knob name is the name
of `nuke.thisKnob()`; the early-return block (source lines 551-560)
returns with no events when the knob is not a sync trigger, and otherwise
defers to `sync_viewers_rest`.  A missing `vs_` switch knob on the caller
surfaces as the uncaught host `NameError` (embedded as an error
result). -/
def sync_viewers (caller : SyncNode) (caller_knob : String)
    (viewers : List String) (toNode : String → Option TargetViewer) :
    Except PyExc (List SyncEvent) :=
  if caller_knob ∈ ["inputChange", "knobChanged"] then
    sync_viewers_rest caller caller_knob viewers toNode
  else if ¬ (caller_knob ∈ sync_default_keys ++ VIEWER_SYNC_KNOBS) then
    Except.ok []
  else if caller_knob ∈ VIEWER_SYNC_KNOBS then
    sync_viewers_rest caller caller_knob viewers toNode
  else
    match caller.getKnob ("vs_" ++ caller_knob) with
    | none => Except.error (PyExc.nameError ("vs_" ++ caller_knob))
    | some v =>
        if ¬ v.truthy then Except.ok []
        else sync_viewers_rest caller caller_knob viewers toNode

end Thorium.ViewerSync

namespace Thorium.ViewerSync

/-- A well-formed name contains no single-quote character. -/
theorem wfName_no_sq (n : String) (hn : wfName n = true) :
    ∀ c ∈ n.data, c ≠ sqChar := by
  intro c hc
  have hc' := (List.all_eq_true.mp hn) c hc
  intro he
  subst he
  exact absurd hc' (by decide)

/-- Folding the machine over quote-free characters inside a string item
accumulates them. -/
theorem foldl_pstep_inStr (xs : List Char) (hxs : ∀ c ∈ xs, c ≠ sqChar)
    (acc : List Char) (items : List String) :
    xs.foldl pstep (PState.inStr, acc, items)
      = (PState.inStr, xs.reverse ++ acc, items) := by
  induction xs generalizing acc with
  | nil => simp
  | cons c rest ih =>
    have hc : c ≠ sqChar := hxs c (by simp)
    have hrest : ∀ d ∈ rest, d ≠ sqChar := fun d hd => hxs d (by simp [hd])
    simp only [List.foldl_cons, pstep, if_neg hc]
    rw [ih hrest]
    simp

/-- `String.mk` of the character data of a string is the string itself. -/
theorem string_mk_data (s : String) : String.mk s.data = s := rfl

/-- Folding the machine over a string item body, its closing quote and a
tail finishes the item and continues on the tail. -/
theorem foldl_pstep_item (n : String) (hn : wfName n = true)
    (items : List String) (tail : List Char) :
    (n.data ++ sqChar :: tail).foldl pstep (PState.inStr, [], items)
      = tail.foldl pstep (PState.afterStr, [], n :: items) := by
  rw [show n.data ++ sqChar :: tail = (n.data ++ [sqChar]) ++ tail from by simp,
    List.foldl_append, List.foldl_append,
    foldl_pstep_inStr n.data (wfName_no_sq n hn) [] items]
  simp [pstep, string_mk_data]

/-- Folding the machine over the quoted items (non-empty, comma-space
separated) followed by the closing bracket reaches the accepting state
with all items collected, starting from either entry state. -/
theorem foldl_pstep_body (names : List String) (hne : names ≠ [])
    (hwf : ∀ n ∈ names, wfName n = true) (items : List String) (st : PState)
    (hst : st = PState.start ∨ st = PState.afterSpace) :
    (reprBodyChars names ++ [rbrackChar]).foldl pstep (st, [], items)
      = (PState.done, [], names.reverse ++ items) := by
  induction names generalizing items st with
  | nil => exact absurd rfl hne
  | cons n rest ih =>
    have hn : wfName n = true := hwf n (by simp)
    have hsq : pstep (st, [], items) sqChar = (PState.inStr, [], items) := by
      rcases hst with h | h <;> subst h <;> simp [pstep]
    cases rest with
    | nil =>
      rw [show reprBodyChars [n] ++ [rbrackChar]
          = sqChar :: (n.data ++ sqChar :: [rbrackChar]) from by
        simp [reprBodyChars, reprQuoted]]
      rw [List.foldl_cons, hsq, foldl_pstep_item n hn items [rbrackChar]]
      simp [pstep]
    | cons m rest2 =>
      rw [show reprBodyChars (n :: m :: rest2) ++ [rbrackChar]
          = sqChar :: (n.data ++ sqChar ::
              (commaChar :: spaceChar
                :: (reprBodyChars (m :: rest2) ++ [rbrackChar]))) from by
        simp [reprBodyChars, reprQuoted]]
      rw [List.foldl_cons, hsq,
        foldl_pstep_item n hn items
          (commaChar :: spaceChar :: (reprBodyChars (m :: rest2) ++ [rbrackChar]))]
      have h1 : pstep (PState.afterStr, [], n :: items) commaChar
          = (PState.afterComma, [], n :: items) := by
        simp only [pstep]
        rw [if_neg (by decide : ¬ (commaChar = rbrackChar))]
        simp
      have h2 : pstep (PState.afterComma, [], n :: items) spaceChar
          = (PState.afterSpace, [], n :: items) := by
        simp [pstep]
      rw [List.foldl_cons, h1, List.foldl_cons, h2,
        ih (by simp) (fun d hd => hwf d (by simp [hd])) (n :: items)
          PState.afterSpace (Or.inr rfl)]
      simp

/-- `literal_eval` inverts the canonical `repr` of a list of well-formed
strings. -/
theorem literal_eval_pyRepr (classify : String → LiteralEvalOutcome)
    (names : List String)
    (hwf : ∀ n ∈ names, wfName n = true) :
    literal_eval_str_list classify (pyReprStrList names)
      = Except.ok names := by
  cases names with
  | nil => rfl
  | cons n rest =>
    show literal_eval_str_list classify
        (String.mk (lbrackChar :: reprBodyChars (n :: rest) ++ [rbrackChar]))
      = _
    simp only [literal_eval_str_list, List.cons_append, if_pos rfl]
    rw [foldl_pstep_body (n :: rest) (by simp) hwf [] PState.start (Or.inl rfl)]
    simp

end Thorium.ViewerSync

namespace Thorium.ViewerSync

/-- `str.replace` removes a leading occurrence of `old`. -/
theorem pyReplaceChars_head (old new rest : List Char) (hold : old ≠ []) :
    pyReplaceChars old new (old ++ rest) = new ++ pyReplaceChars old new rest := by
  cases old with
  | nil => exact absurd rfl hold
  | cons o otail =>
    rw [show (o :: otail) ++ rest = o :: (otail ++ rest) from rfl]
    rw [pyReplaceChars]
    rw [dif_pos ⟨by simp, List.isPrefixOf_iff_prefix.mpr
      (by exact List.prefix_append (o :: otail) rest)⟩]
    congr 1
    congr 1
    exact List.drop_left (o :: otail) rest

/-- `str.replace` is the identity when a character of `old` never occurs
in the string. -/
theorem pyReplaceChars_no_occ (old new : List Char) (c0 : Char)
    (hc0 : c0 ∈ old) :
    ∀ s : List Char, c0 ∉ s → pyReplaceChars old new s = s := by
  intro s
  induction s with
  | nil =>
    intro _
    rw [pyReplaceChars]
  | cons c rest ih =>
    intro hs
    rw [pyReplaceChars]
    rw [dif_neg]
    · rw [ih (fun h => hs (by simp [h]))]
    · rintro ⟨-, hpre⟩
      exact hs ((List.isPrefixOf_iff_prefix.mp hpre).subset hc0)

/-- Every character of the repr body of well-formed names is a name
character, a quote, a comma or a space. -/
theorem reprBodyChars_mem (names : List String)
    (hwf : ∀ n ∈ names, wfName n = true) :
    ∀ c ∈ reprBodyChars names,
      wfNameChar c = true ∨ c = sqChar ∨ c = commaChar ∨ c = spaceChar := by
  induction names with
  | nil => simp [reprBodyChars]
  | cons n rest ih =>
    have hn : wfName n = true := hwf n (by simp)
    have hq : ∀ c ∈ reprQuoted n,
        wfNameChar c = true ∨ c = sqChar ∨ c = commaChar ∨ c = spaceChar := by
      intro c hc
      rcases List.mem_cons.mp hc with h | h
      · exact Or.inr (Or.inl h)
      · rcases List.mem_append.mp h with h | h
        · exact Or.inl ((List.all_eq_true.mp hn) c h)
        · simp at h
          exact Or.inr (Or.inl h)
    cases rest with
    | nil => simpa [reprBodyChars] using hq
    | cons m rest2 =>
      intro c hc
      rw [show reprBodyChars (n :: m :: rest2)
          = reprQuoted n ++ (commaChar :: spaceChar :: reprBodyChars (m :: rest2))
        from rfl] at hc
      rcases List.mem_append.mp hc with h | h
      · exact hq c h
      · rcases List.mem_cons.mp h with h | h
        · exact Or.inr (Or.inr (Or.inl h))
        · rcases List.mem_cons.mp h with h | h
          · exact Or.inr (Or.inr (Or.inr h))
          · exact ih (fun d hd => hwf d (by simp [hd])) c h

/-- The open parenthesis occurs nowhere in the repr of well-formed names
followed by the closing parenthesis. -/
theorem lparen_not_mem (names : List String)
    (hwf : ∀ n ∈ names, wfName n = true) :
    Char.ofNat 40 ∉ (pyReprStrList names).data ++ (")" : String).data := by
  intro h
  rcases List.mem_append.mp h with h | h
  · rw [show (pyReprStrList names).data
        = lbrackChar :: reprBodyChars names ++ [rbrackChar] from rfl] at h
    rcases List.mem_cons.mp h with h | h
    · exact absurd h (by decide)
    · rcases List.mem_append.mp h with h | h
      · rcases reprBodyChars_mem names hwf _ h with h | h | h | h
        · exact absurd h (by decide)
        · exact absurd h (by decide)
        · exact absurd h (by decide)
        · exact absurd h (by decide)
      · simp at h
        exact absurd h (by decide)
  · simp at h

/-- Resolving the names of viewers that exist in the graph returns the
viewers themselves. -/
theorem filterMap_toNode (toNode : String → Option Viewer) (l : List Viewer)
    (h : ∀ u ∈ l, toNode u.fullName = some u) :
    (l.map Viewer.fullName).filterMap toNode = l := by
  induction l with
  | nil => rfl
  | cons u rest ih =>
    rw [List.map_cons, List.filterMap_cons, h u (by simp),
      ih (fun w hw => h w (by simp [hw]))]

/-- No outcome of the `literal_eval` fallback carries the explicit
foreign-callback `ValueError` of `_extract_viewer_list`: the malformed
`ValueError` has a different message and an uncaught exception is not a
`ValueError`. -/
theorem literal_eval_fallback_error_ne
    (classify : String → LiteralEvalOutcome) (s : String) (e : PyExc)
    (h : literal_eval_fallback classify s = Except.error e) :
    e ≠ PyExc.valueError vsForeignErrMsg := by
  unfold literal_eval_fallback at h
  split at h
  · simp at h
  · intro heq
    rw [heq] at h
    exact absurd (PyExc.valueError.inj (Except.error.inj h)) (by decide)
  · intro heq
    rw [heq] at h
    simp at h

/-- No error of the `literal_eval` model is the explicit foreign-callback
`ValueError` of `_extract_viewer_list`. -/
theorem literal_eval_error_ne (classify : String → LiteralEvalOutcome)
    (s : String) (e : PyExc)
    (h : literal_eval_str_list classify s = Except.error e) :
    e ≠ PyExc.valueError vsForeignErrMsg := by
  unfold literal_eval_str_list at h
  split at h
  · exact literal_eval_fallback_error_ne classify s e h
  · split at h
    · split at h
      · simp at h
      · exact literal_eval_fallback_error_ne classify s e h
    · exact literal_eval_fallback_error_ne classify s e h

/-- A string equals the empty string exactly when its character data is
empty. -/
theorem string_eq_empty_iff (s : String) : s = "" ↔ s.data = [] := by
  constructor
  · intro h
    rw [h]
  · intro h
    cases s
    simp at h
    simp [h]

end Thorium.ViewerSync

namespace Thorium.ViewerSync

/-- Claim C4: writing a sync callback with `_set_callback(v, V)` (for a
duplicate-free list `V` of viewers with well-formed names that all resolve
through the host) and parsing it back with `_extract_viewer_list` returns
exactly the viewers of `V` other than `v` itself; and
`_extract_viewer_list` raises its `ValueError` (the explicit
`Not a viewerSync..d viewer.` raise of line 274) exactly when a non-empty
callback not containing the text `viewerSync` is present. -/
theorem c4_callback_roundtrip (classify : String → LiteralEvalOutcome)
    (v : Viewer) (V : List Viewer)
    (toNode : String → Option Viewer)
    (hnodup : V.Nodup)
    (hwf : ∀ u ∈ V, wfName u.fullName = true)
    (hex : ∀ u ∈ V, toNode u.fullName = some u) :
    extract_viewer_list classify toNode (set_callback v V)
        = Except.ok (V.filter (fun u => u ≠ v))
      ∧ ∀ cb : String,
          (extract_viewer_list classify toNode cb
              = Except.error (PyExc.valueError vsForeignErrMsg)
            ↔ cb ≠ "" ∧ pyIn "viewerSync" cb = false) := by
  have names_def : set_callback v V
      = vsCallbackPrefix
          ++ pyReprStrList ((V.erase v).map Viewer.fullName) ++ ")" := rfl
  have hwfe : ∀ n ∈ (V.erase v).map Viewer.fullName, wfName n = true := by
    intro n hn
    rcases List.mem_map.mp hn with ⟨u, hu, rfl⟩
    exact hwf u (List.mem_of_mem_erase hu)
  have hdata : (set_callback v V).data
      = vsCallbackPrefix.data
          ++ ((pyReprStrList ((V.erase v).map Viewer.fullName)).data
              ++ (")" : String).data) := by
    rw [names_def, String.data_append, String.data_append, List.append_assoc]
  constructor
  · unfold extract_viewer_list
    rw [if_neg (by
      rw [hdata]
      simp [(by decide : ¬ (vsCallbackPrefix.data = []))])]
    have hin : pyIn "viewerSync" (set_callback v V) = true := by
      apply decide_eq_true
      rw [show (String.data "viewerSync" <:+: (set_callback v V).data)
          = (String.data "viewerSync" <:+:
              (vsCallbackPrefix.data
                ++ ((pyReprStrList ((V.erase v).map Viewer.fullName)).data
                    ++ (")" : String).data))) from by rw [hdata]]
      exact ((by decide :
          ("viewerSync" : String).data <+: vsCallbackPrefix.data).trans
        (List.prefix_append _ _)).isInfix
    rw [if_neg (fun hcon => hcon hin)]
    have hrepl : pyReplaceChars vsCallbackPrefix.data [] (set_callback v V).data
        = (pyReprStrList ((V.erase v).map Viewer.fullName)).data
            ++ (")" : String).data := by
      rw [hdata, pyReplaceChars_head _ _ _ (by decide),
        pyReplaceChars_no_occ vsCallbackPrefix.data [] (Char.ofNat 40)
          (by decide) _ (lparen_not_mem _ hwfe)]
      simp
    have hcb : String.mk
        ((pyReplaceChars vsCallbackPrefix.data [] (set_callback v V).data).dropLast)
        = pyReprStrList ((V.erase v).map Viewer.fullName) := by
      rw [hrepl, show ((")" : String).data) = [Char.ofNat 41] from rfl,
        List.dropLast_concat, string_mk_data]
    simp only [hcb, literal_eval_pyRepr classify _ hwfe]
    rw [filterMap_toNode toNode (V.erase v)
      (fun u hu => hex u (List.mem_of_mem_erase hu))]
    have herase : V.erase v = V.filter (fun u => u ≠ v) := by
      rw [List.Nodup.erase_eq_filter hnodup]
      congr 1
      funext u
      by_cases h : u = v <;> simp [h]
    rw [herase]
  · intro cb
    constructor
    · intro herr
      unfold extract_viewer_list at herr
      by_cases h1 : cb.data = []
      · rw [if_pos h1] at herr
        simp at herr
      · rw [if_neg h1] at herr
        by_cases h2 : pyIn "viewerSync" cb = true
        · rw [if_neg (fun hcon => hcon h2)] at herr
          rcases hres : literal_eval_str_list classify (String.mk
              ((pyReplaceChars vsCallbackPrefix.data [] cb.data).dropLast))
            with e | ls
          · rw [hres] at herr
            exact absurd (Except.error.inj herr)
              (literal_eval_error_ne classify _ e hres)
          · rw [hres] at herr
            simp at herr
        · refine ⟨fun hcb => h1 ((string_eq_empty_iff cb).mp hcb), ?_⟩
          simpa using h2
    · rintro ⟨hne, hfalse⟩
      unfold extract_viewer_list
      rw [if_neg (fun h => hne ((string_eq_empty_iff cb).mpr h)),
        if_pos (by simp [hfalse])]

end Thorium.ViewerSync

namespace Thorium.ViewerSync

/-- Witness for C4: syncing Viewer1 against the group of all three viewers
writes a callback that parses back to exactly Viewer2 and Viewer3. -/
theorem c4_callback_roundtrip_witness :
    extract_viewer_list (fun _ => LiteralEvalOutcome.malformed)
        (fun n => if n = "Viewer1" then some ⟨"Viewer1"⟩
          else if n = "Viewer2" then some ⟨"Viewer2"⟩
          else if n = "Viewer3" then some ⟨"Viewer3"⟩ else none)
        (set_callback ⟨"Viewer1"⟩ [⟨"Viewer1"⟩, ⟨"Viewer2"⟩, ⟨"Viewer3"⟩])
      = Except.ok [⟨"Viewer2"⟩, ⟨"Viewer3"⟩] :=
  ((c4_callback_roundtrip (fun _ => LiteralEvalOutcome.malformed)
      ⟨"Viewer1"⟩ [⟨"Viewer1"⟩, ⟨"Viewer2"⟩, ⟨"Viewer3"⟩]
      (fun n => if n = "Viewer1" then some ⟨"Viewer1"⟩
        else if n = "Viewer2" then some ⟨"Viewer2"⟩
        else if n = "Viewer3" then some ⟨"Viewer3"⟩ else none)
      (by decide) (by decide) (by decide)).1).trans
    (congrArg Except.ok (by decide))

/-- No synced knob name is itself a `vs_` switch name. -/
theorem keys_not_vs :
    ∀ k ∈ sync_default_keys, k ∉ VIEWER_SYNC_KNOBS := by decide

/-- Claim C5: `sync_viewers` invoked by a change event whose knob name is
not `inputChange` or `knobChanged` returns early with no write to any
target viewer when the knob is not in the sync whitelist (the
`SYNC_DEFAULTS` keys and their `vs_` switches), and likewise when the knob
is a synced knob whose `vs_` switch on the calling viewer holds a falsy
value. -/
theorem c5_sync_viewers_early_return (caller : SyncNode)
    (caller_knob : String) (viewers : List String)
    (toNode : String → Option TargetViewer)
    (hnot : caller_knob ∉ ["inputChange", "knobChanged"]) :
    (caller_knob ∉ sync_default_keys ++ VIEWER_SYNC_KNOBS →
        sync_viewers caller caller_knob viewers toNode = Except.ok [])
      ∧ (∀ w, caller_knob ∈ sync_default_keys →
          caller.getKnob ("vs_" ++ caller_knob) = some w →
          w.truthy = false →
          sync_viewers caller caller_knob viewers toNode = Except.ok []) := by
  constructor
  · intro hw
    unfold sync_viewers
    rw [if_neg hnot, if_pos hw]
  · intro w hk hget hfalse
    unfold sync_viewers
    rw [if_neg hnot,
      if_neg (fun hcon => hcon (List.mem_append.mpr (Or.inl hk))),
      if_neg (keys_not_vs caller_knob hk)]
    simp only [hget]
    rw [if_pos (by simp [hfalse])]

/-- Witness for C5: a knob outside the whitelist, and the `gain` knob with
`vs_gain` set to false, both produce no events. -/
theorem c5_sync_viewers_early_return_witness :
    sync_viewers ⟨[("vs_gain", PyVal.vbool false)], 0, fun _ => none⟩
        "label" ["Viewer1"] (fun _ => none) = Except.ok []
      ∧ sync_viewers ⟨[("vs_gain", PyVal.vbool false)], 0, fun _ => none⟩
          "gain" ["Viewer1"] (fun _ => none) = Except.ok [] :=
  ⟨(c5_sync_viewers_early_return _ "label" _ _ (by decide)).1 (by decide),
   (c5_sync_viewers_early_return _ "gain" _ _ (by decide)).2
     (PyVal.vbool false) (by decide) rfl rfl⟩

/-- `remove_vs_knobs` leaves only names not starting with `vs_`. -/
theorem remove_vs_knobs_clean (names : List String) :
    ∀ k ∈ remove_vs_knobs names, pyStartsWith k "vs_" = false := by
  intro k hk
  unfold remove_vs_knobs at hk
  split at hk
  · have h2 := (List.mem_filter.mp (List.mem_of_mem_erase hk)).2
    simpa using h2
  · have h2 := (List.mem_filter.mp hk).2
    simpa using h2

/-- `remove_vs_knobs` is the identity on already-clean name lists. -/
theorem remove_vs_knobs_of_clean (names : List String)
    (h : ∀ k ∈ names, pyStartsWith k "vs_" = false) :
    remove_vs_knobs names = names := by
  unfold remove_vs_knobs
  have hf : names.filter (fun k => ¬ (pyStartsWith k "vs_" = true)) = names :=
    List.filter_eq_self.mpr (fun a ha => by simp [h a ha])
  rw [hf, if_neg]
  intro hmem
  exact absurd (h _ hmem) (by decide)

/-- The `remove_callbacks` loop body on the callback value. -/
theorem step_knobChanged (v : ViewerState) :
    (remove_callbacks_step v).knobChanged
      = if pyIn "viewerSync" v.knobChanged then "" else v.knobChanged := by
  by_cases h : pyIn "viewerSync" v.knobChanged = true <;>
    simp [remove_callbacks_step, remove_knobs, h]

/-- The `remove_callbacks` loop body on the knob names. -/
theorem step_knobNames (v : ViewerState) :
    (remove_callbacks_step v).knobNames = remove_vs_knobs v.knobNames := by
  unfold remove_callbacks_step remove_knobs
  split <;> rfl

/-- After the loop body, no `vs_` knob survives. -/
theorem step_clean (v : ViewerState) :
    ∀ k ∈ (remove_callbacks_step v).knobNames,
      pyStartsWith k "vs_" = false := by
  rw [step_knobNames]
  exact remove_vs_knobs_clean _

/-- Two viewer states with equal components are equal. -/
theorem viewerstate_eq (a b : ViewerState)
    (h1 : a.knobChanged = b.knobChanged) (h2 : a.knobNames = b.knobNames) :
    a = b := by
  cases a
  cases b
  simp_all

/-- The `remove_callbacks` loop body is idempotent. -/
theorem step_idem (v : ViewerState) :
    remove_callbacks_step (remove_callbacks_step v)
      = remove_callbacks_step v := by
  apply viewerstate_eq
  · rw [step_knobChanged (remove_callbacks_step v)]
    have hkc : pyIn "viewerSync" (remove_callbacks_step v).knobChanged
        = false := by
      rw [step_knobChanged v]
      by_cases h : pyIn "viewerSync" v.knobChanged = true
      · rw [if_pos h]
        decide
      · rw [if_neg h]
        simpa using h
    rw [hkc]
    simp
  · rw [step_knobNames (remove_callbacks_step v), step_knobNames v,
      remove_vs_knobs_of_clean _ (remove_vs_knobs_clean v.knobNames)]

/-- The pointwise effect of the `remove_callbacks` loop: a viewer in the
list gets the body applied (once, up to idempotence), all others keep
their state. -/
theorem apply_step_to_spec (names : List String) (st : String → ViewerState)
    (n : String) :
    apply_step_to names st n
      = if n ∈ names then remove_callbacks_step (st n) else st n := by
  induction names generalizing st with
  | nil => simp [apply_step_to]
  | cons a rest ih =>
    rw [show apply_step_to (a :: rest) st
        = apply_step_to rest
            (fun m => if m = a then remove_callbacks_step (st m) else st m)
      from rfl, ih]
    by_cases hna : n = a
    · subst hna
      by_cases hnr : n ∈ rest
      · simp [hnr, step_idem]
      · simp [hnr]
    · by_cases hnr : n ∈ rest
      · simp [hna, hnr]
      · simp [hna, hnr]

/-- Claim C10: `remove_callbacks` blanks the `knobChanged` knob of a
viewer only when its current value contains the text `viewerSync`, and a
viewer whose `knobChanged` holds a foreign callback keeps that value
unchanged (both hold on every run, including one aborted by an uncaught
exception from the extraction phase, which precedes all mutation); and
when the viewer list is built successfully (so the mutation loop runs),
every knob whose name starts with `vs_` is removed from each examined
viewer (the selected viewers plus the viewers their callbacks link to, or
all viewers when nothing is selected). -/
theorem c10_remove_callbacks (classify : String → LiteralEvalOutcome)
    (g : VsGraph) (name : String) :
    (((remove_callbacks g classify).1 name).knobChanged
          ≠ (g.state name).knobChanged →
        pyIn "viewerSync" (g.state name).knobChanged = true
          ∧ ((remove_callbacks g classify).1 name).knobChanged = "")
      ∧ (pyIn "viewerSync" (g.state name).knobChanged = false →
          ((remove_callbacks g classify).1 name).knobChanged
            = (g.state name).knobChanged)
      ∧ (∀ names, remove_callbacks_viewers g classify = Except.ok names →
          name ∈ names →
          ∀ k ∈ ((remove_callbacks g classify).1 name).knobNames,
            pyStartsWith k "vs_" = false) := by
  rcases hv : remove_callbacks_viewers g classify with e | names0
  · have hst : (remove_callbacks g classify).1 = g.state := by
      unfold remove_callbacks
      rw [hv]
    refine ⟨?_, ?_, ?_⟩
    · intro hne
      rw [hst] at hne
      exact absurd rfl hne
    · intro _
      rw [hst]
    · intro names hnames
      simp at hnames
  · have hrc : ∀ n, (remove_callbacks g classify).1 n
        = if n ∈ names0 then remove_callbacks_step (g.state n)
          else g.state n := by
      intro n
      have hst : (remove_callbacks g classify).1
          = apply_step_to names0 g.state := by
        unfold remove_callbacks
        rw [hv]
      rw [hst]
      exact apply_step_to_spec _ _ _
    refine ⟨?_, ?_, ?_⟩
    · intro hne
      rw [hrc name] at hne ⊢
      by_cases hmem : name ∈ names0
      · rw [if_pos hmem] at hne ⊢
        rw [step_knobChanged] at hne ⊢
        by_cases h : pyIn "viewerSync" (g.state name).knobChanged = true
        · exact ⟨h, by rw [if_pos h]⟩
        · rw [if_neg h] at hne
          exact absurd rfl hne
      · rw [if_neg hmem] at hne
        exact absurd rfl hne
    · intro hfor
      rw [hrc name]
      by_cases hmem : name ∈ names0
      · rw [if_pos hmem, step_knobChanged, hfor]
        simp
      · rw [if_neg hmem]
    · intro names hnames hmem
      have hn0 : names = names0 := (Except.ok.inj hnames).symm
      subst hn0
      rw [hrc name, if_pos hmem]
      exact step_clean _

/-- Witness for C10 on a two-viewer graph with nothing selected (the
`literal_eval` classification is irrelevant there and instantiated with
the constant malformed outcome): the foreign callback of V2 is untouched
and the `vs_gain` knob of V1 is removed. -/
theorem c10_remove_callbacks_witness :
    ((remove_callbacks
        ⟨["V1", "V2"],
          fun n => if n = "V1" then
              ⟨"viewerSync.sync_viewers([])", ["vs_gain", "extra_knob"]⟩
            else ⟨"foreign callback", ["vs_roi"]⟩,
          []⟩ (fun _ => LiteralEvalOutcome.malformed)).1 "V2").knobChanged
        = "foreign callback"
      ∧ "vs_gain" ∉ ((remove_callbacks
          ⟨["V1", "V2"],
            fun n => if n = "V1" then
                ⟨"viewerSync.sync_viewers([])", ["vs_gain", "extra_knob"]⟩
              else ⟨"foreign callback", ["vs_roi"]⟩,
            []⟩ (fun _ => LiteralEvalOutcome.malformed)).1 "V1").knobNames :=
  ⟨(c10_remove_callbacks (fun _ => LiteralEvalOutcome.malformed)
      ⟨["V1", "V2"],
        fun n => if n = "V1" then
            ⟨"viewerSync.sync_viewers([])", ["vs_gain", "extra_knob"]⟩
          else ⟨"foreign callback", ["vs_roi"]⟩,
        []⟩ "V2").2.1 (by decide),
   fun hmem =>
     absurd
       ((c10_remove_callbacks (fun _ => LiteralEvalOutcome.malformed)
          ⟨["V1", "V2"],
            fun n => if n = "V1" then
                ⟨"viewerSync.sync_viewers([])", ["vs_gain", "extra_knob"]⟩
              else ⟨"foreign callback", ["vs_roi"]⟩,
            []⟩ "V1").2.2 ["V1", "V2"] rfl (by decide) "vs_gain" hmem)
       (by decide)⟩

/-- The crash path of `remove_callbacks` is represented: a selected
viewer whose callback contains the text `viewerSync` but is not a
parsable argument list (classified as an uncaught exception, as Python 2
raises `SyntaxError` there) aborts the extraction phase, the exception
propagates, and every viewer state is left untouched. -/
theorem remove_callbacks_crash_path :
    remove_callbacks
        ⟨["V1"], fun _ => ⟨"viewerSync gibberish", ["vs_gain"]⟩, ["V1"]⟩
        (fun _ => LiteralEvalOutcome.uncaught "invalid syntax")
      = (fun _ => ⟨"viewerSync gibberish", ["vs_gain"]⟩,
         Except.error (PyExc.syntaxError "invalid syntax")) := by
  have hex : extract_viewer_list
      (fun _ => LiteralEvalOutcome.uncaught "invalid syntax")
      (VsGraph.toNode
        ⟨["V1"], fun _ => ⟨"viewerSync gibberish", ["vs_gain"]⟩, ["V1"]⟩)
      "viewerSync gibberish"
      = Except.error (PyExc.syntaxError "invalid syntax") := by
    unfold extract_viewer_list
    rw [if_neg (by decide), if_neg (by decide),
      pyReplaceChars_no_occ vsCallbackPrefix.data [] (Char.ofNat 40)
        (by decide) _ (by decide)]
    rfl
  unfold remove_callbacks remove_callbacks_viewers remove_callbacks_extra
  rw [if_neg (by decide), hex]

end Thorium.ViewerSync

namespace Thorium

open Thorium.UtilsNodes

/-- Claim C8: the layout helpers compute exactly the documented integer
arithmetic: `center_x target source` is `source.xpos` minus the Python 2
floor division of the width difference by 2 (so the doubled horizontal
midline of the centered target differs from the doubled midline of the
source by at most 1, i.e. the midlines match to within one pixel), and
`space_x` / `space_y` add the node extent, the node position and the
padding. -/
theorem c8_layout_arithmetic (target source : DagNode) (padding : Int) :
    center_x target source
        = source.xpos - Int.fdiv (node_width target - node_width source) 2
      ∧ space_x source padding = node_width source + source.xpos + padding
      ∧ space_y source padding = node_height source + source.ypos + padding
      ∧ |(2 * center_x target source + node_width target)
          - (2 * source.xpos + node_width source)| ≤ 1 := by
  refine ⟨rfl, rfl, rfl, ?_⟩
  rw [abs_le]
  unfold center_x
  rw [Int.fdiv_eq_ediv _ (by norm_num)]
  constructor <;> omega

/-- Claim C9: `node_width` and `node_height` never return 0: when the host
reports width or height 0 (the Nuke 7 bug) they fall back to 80 and 18 for
non-Dot nodes and to 12 for Dot nodes, and otherwise they return the
host-reported value unchanged. -/
theorem c9_node_size_nonzero (node : DagNode) :
    (node_width node ≠ 0 ∧ node_height node ≠ 0)
      ∧ (node.screenWidth = 0 →
          node_width node = if node.klass ≠ "Dot" then 80 else 12)
      ∧ (node.screenHeight = 0 →
          node_height node = if node.klass ≠ "Dot" then 18 else 12)
      ∧ (node.screenWidth ≠ 0 → node_width node = node.screenWidth)
      ∧ (node.screenHeight ≠ 0 → node_height node = node.screenHeight) := by
  unfold node_width node_height
  by_cases hw : node.screenWidth = 0 <;>
    by_cases hh : node.screenHeight = 0 <;>
      by_cases hk : node.klass = "Dot" <;>
        simp [hw, hh, hk]

/-- Witness for C9 at concrete nodes: a zero-width Grade node gets width
80, a zero-height Dot node gets height 12, and a node with reported width
55 keeps it. -/
theorem c9_node_size_nonzero_witness :
    node_width ⟨0, 0, 0, 0, "Grade"⟩ = 80
      ∧ node_height ⟨0, 0, 0, 0, "Dot"⟩ = 12
      ∧ node_width ⟨0, 0, 55, 20, "Grade"⟩ = 55 :=
  ⟨((c9_node_size_nonzero ⟨0, 0, 0, 0, "Grade"⟩).2.1 rfl).trans (by decide),
   ((c9_node_size_nonzero ⟨0, 0, 0, 0, "Dot"⟩).2.2.1 rfl).trans (by decide),
   (c9_node_size_nonzero ⟨0, 0, 55, 20, "Grade"⟩).2.2.2.1 (by decide)⟩

end Thorium

namespace Thorium

open Thorium.Init

/-- Claim C6: `run_gui` imports and runs exactly those GUI submodules
among `animatedSnap3D`, `cardToTrack` and `iconPanel` whose configuration
entry `modules.get(name, default)` is true: a module name is imported iff
it is one of the three and its entry resolves to true, and it is run iff
it is imported. -/
theorem c6_run_gui_exact (modules : List (String × Bool)) (default : Bool)
    (menu_name : String) (name : String) :
    (GuiEvent.imported name ∈ run_gui modules default menu_name ↔
      (name ∈ ["animatedSnap3D", "cardToTrack", "iconPanel"]
        ∧ pyDictGet modules name default = true))
      ∧ ((∃ m, GuiEvent.ran name m ∈ run_gui modules default menu_name) ↔
          GuiEvent.imported name ∈ run_gui modules default menu_name) := by
  cases ha : pyDictGet modules "animatedSnap3D" default <;>
    cases hc : pyDictGet modules "cardToTrack" default <;>
      cases hi : pyDictGet modules "iconPanel" default <;>
        constructor <;>
          simp only [run_gui, ha, hc, hi, if_true, if_false, List.append_nil,
            List.nil_append, List.cons_append, List.mem_cons, List.mem_append,
            List.not_mem_nil, List.mem_singleton, or_false, false_or] <;>
          constructor <;>
          rintro h <;>
          first
            | (rcases h with ⟨m, hm⟩ | h | h | h | h | h
               <;> simp_all
               <;> aesop)
            | (rcases h with ⟨h1, h2⟩
               <;> rcases h1 with h1 | h1 | h1
               <;> simp_all)
            | simp_all
            | aesop

/-- Witness for C6: with `cardToTrack` explicitly disabled and default
true, `iconPanel` is imported and `cardToTrack` is not. -/
theorem c6_run_gui_exact_witness :
    GuiEvent.imported "iconPanel"
        ∈ run_gui [("cardToTrack", false)] true "Thorium"
      ∧ GuiEvent.imported "cardToTrack"
          ∉ run_gui [("cardToTrack", false)] true "Thorium" :=
  ⟨(c6_run_gui_exact [("cardToTrack", false)] true "Thorium" "iconPanel").1.mpr
      (by decide),
   fun h =>
     by
       have := (c6_run_gui_exact [("cardToTrack", false)] true "Thorium"
         "cardToTrack").1.mp h
       simp [pyDictGet] at this⟩

end Thorium

namespace Thorium

/-- In a list sorted by `≤`, the first index of a member equals the number
of entries strictly below it. -/
theorem sorted_indexOf_eq_countP (l : List String) (x : String)
    (hs : l.Sorted (· ≤ ·)) (hx : x ∈ l) :
    l.indexOf x = l.countP (fun s => s < x) := by
  induction l with
  | nil => cases hx
  | cons a t ih =>
    rcases List.sorted_cons.mp hs with ⟨ha, ht⟩
    by_cases hax : a = x
    · subst hax
      have h0 : t.countP (fun s => decide (s < a)) = 0 := by
        rw [List.countP_eq_zero]
        intro s hst
        simpa using not_lt.mpr (ha s hst)
      rw [List.indexOf_cons_self, List.countP_cons, h0,
        decide_eq_false (lt_irrefl a)]
      rfl
    · have hxt : x ∈ t := by
        rcases List.mem_cons.mp hx with h | h
        · exact absurd h.symm hax
        · exact h
      have hax' : a < x := lt_of_le_of_ne (ha x hxt) hax
      rw [List.indexOf_cons_ne _ hax, List.countP_cons, ih ht hxt,
        decide_eq_true hax']
      simp only [if_true]

/-- Claim C7: both copies of `_get_menu_item_index` return the
alphabetical insertion point of `item` into the existing menu item names:
the index `item` occupies in the sorted list of the names plus `item`,
which equals the number of existing names strictly below `item`; and the
cardToTrack and viewerSync copies agree on every input. -/
theorem c7_menu_item_index (menu_items : List String) (item : String) :
    Thorium.CardToTrack.get_menu_item_index menu_items item
        = Thorium.ViewerSyncMenu.get_menu_item_index menu_items item
      ∧ Thorium.CardToTrack.get_menu_item_index menu_items item
          = (menu_items.filter (fun s => s < item)).length := by
  refine ⟨rfl, ?_⟩
  unfold Thorium.CardToTrack.get_menu_item_index
  have hperm := (menu_items ++ [item]).perm_insertionSort (· ≤ ·)
  have hsorted := List.sorted_insertionSort (α := String) (· ≤ ·)
    (menu_items ++ [item])
  have hmem : item ∈ (menu_items ++ [item]).insertionSort (· ≤ ·) :=
    hperm.mem_iff.mpr (by simp)
  rw [sorted_indexOf_eq_countP _ _ hsorted hmem, hperm.countP_eq,
    List.countP_append, List.countP_eq_length_filter]
  simp

end Thorium

namespace Thorium

open Thorium.AnimatedSnap3D

/-- Claim C1 (code bug): `_frange_percent` never sets the claimed
percentage because it calls `frange.framges()`, an attribute the host
`nuke.FrameRange` does not have (the host method for the number of frames
in the range is `frames()`).  At the concrete input frame 5 of the range
1..10 step 1 the call raises `AttributeError` instead of returning
`int(100 * (5 - 1) / 10)`, even though `frames` is present and reports
10 frames. -/
theorem c1_frange_percent_raises :
    frange_percent 5 ⟨1, 10, 1⟩
        = Except.error (PyExc.attributeError "framges")
      ∧ FrameRange.callIntMethod ⟨1, 10, 1⟩ "frames" = some 10 := by
  exact ⟨rfl, by decide⟩

/-- Claim C2: when the initial node verification or the initial vertex
verification fails, `animated_snap` shows the error in a host modal dialog
and returns normally having done nothing else: the whole event trace is
that single `nuke.message` call, so no CurveTool is created, no animated
status is cleared or set, and no frame is executed. -/
theorem c2_verify_error_message_only (transforms : List String)
    (vertices : Option Nat) (frangeArg : Option FrameRange)
    (host : SnapHost) :
    (∀ err, host.verifyNodeError = some err →
        animated_snap transforms vertices frangeArg host
          = ([SnapEvent.message err], Except.ok ()))
      ∧ (host.verifyNodeError = none →
          vertices.getD host.initialSelectionCount
              < snap_min_verts (snap_transforms transforms) →
          animated_snap transforms vertices frangeArg host
            = ([SnapEvent.message
                  (vertexSelectionErrMsg
                    (snap_min_verts (snap_transforms transforms)))],
               Except.ok ())) := by
  constructor
  · intro err herr
    simp only [animated_snap, herr]
  · intro hnode hlt
    simp only [animated_snap, hnode, if_pos hlt]

/-- Witness for C2: a failing node verification yields exactly one dialog
message, and a two-point selection with `scaling` requested (minimum 3)
yields exactly the vertex-selection dialog message. -/
theorem c2_verify_error_message_only_witness :
    animated_snap ["translate"] none none
        ⟨some "node is missing knobs", 5, fun _ => 5, fun _ => false,
          fun _ => false, none⟩
      = ([SnapEvent.message "node is missing knobs"], Except.ok ())
      ∧ animated_snap ["scaling"] (some 2) none
          ⟨none, 5, fun _ => 5, fun _ => false, fun _ => false, none⟩
        = ([SnapEvent.message (vertexSelectionErrMsg 3)], Except.ok ()) :=
  ⟨(c2_verify_error_message_only ["translate"] none none
      ⟨some "node is missing knobs", 5, fun _ => 5, fun _ => false,
        fun _ => false, none⟩).1 "node is missing knobs" rfl,
   (c2_verify_error_message_only ["scaling"] (some 2) none
      ⟨none, 5, fun _ => 5, fun _ => false, fun _ => false, none⟩).2
     rfl (by decide)⟩

/-- Claim C3 (code bug): on a run that reaches the frame loop and is never
cancelled (range 2..3, verification passing, one vertex selected), the
first iteration raises `AttributeError` inside `_frange_percent` before
any frame is executed, the exception propagates out of `animated_snap`,
and the trailing `nuke.delete(temp)` is never reached: the trace creates
the temporary CurveTool and never deletes it, contradicting the claim that
the CurveTool is deleted on every exit from the loop. -/
theorem c3_curvetool_leaked_on_loop_crash :
    animated_snap ["translate"] (some 1) (some ⟨2, 3, 1⟩)
        ⟨none, 1, fun _ => 1, fun _ => false, fun _ => false, none⟩
      = ([SnapEvent.curveToolCreated, SnapEvent.setAnimated "translate"],
         Except.error (PyExc.attributeError "framges"))
      ∧ SnapEvent.curveToolDeleted ∉
          (animated_snap ["translate"] (some 1) (some ⟨2, 3, 1⟩)
            ⟨none, 1, fun _ => 1, fun _ => false, fun _ => false, none⟩).1 := by
  refine ⟨rfl, ?_⟩
  intro hmem
  rw [show (animated_snap ["translate"] (some 1) (some ⟨2, 3, 1⟩)
      ⟨none, 1, fun _ => 1, fun _ => false, fun _ => false, none⟩).1
      = [SnapEvent.curveToolCreated, SnapEvent.setAnimated "translate"]
    from rfl] at hmem
  simp at hmem

end Thorium
